import Mathlib

/-!
Shallow embedding of the aphytcomm EtherNet/IP client
(src/eip/eip.py and src/eip/n_series.py).

Bytes are modelled as lists of natural numbers.  Python byte-string
slicing, which clamps to the buffer and never raises, is modelled by
pySlice; int.from_bytes and int.to_bytes are modelled by fromBytesLE
and toBytesLE2.  While loops are modelled by structurally recursive
functions with a fuel argument that bounds the number of iterations;
each wrapper supplies fuel that provably exceeds the number of
iterations the loop can perform, so the fuel never runs out on the
terminating loops.
-/

/-- Python byte-string slice b[i:j]: clamped to the buffer, never an error. -/
def pySlice (b : List Nat) (i j : Nat) : List Nat :=
  (b.take j).drop i

/-- Python int.from_bytes(b, "little"); the empty string decodes to 0. -/
def fromBytesLE (b : List Nat) : Nat :=
  b.foldr (fun x acc => x + 256 * acc) 0

/-- Python n.to_bytes(2, "little"); faithful for n < 65536, which is the
only range where CPython returns (it raises OverflowError above it). -/
def toBytesLE2 (n : Nat) : List Nat :=
  [n % 256, n / 256 % 256]

/-- UTF-8 encoding of one Unicode scalar value, as produced by the Python
str.encode("utf-8") call in CIPRequest.tag_request_path. -/
def utf8EncodeChar (c : Char) : List Nat :=
  let n := c.toNat
  if n < 0x80 then [n]
  else if n < 0x800 then [0xC0 + n / 64, 0x80 + n % 64]
  else if n < 0x10000 then [0xE0 + n / 4096, 0x80 + n / 64 % 64, 0x80 + n % 64]
  else [0xF0 + n / 0x40000, 0x80 + n / 4096 % 64, 0x80 + n / 64 % 64, 0x80 + n % 64]

/-- Python tag_name.encode("utf-8") on a string modelled as a char list. -/
def utf8Encode (s : List Char) : List Nat :=
  (s.map utf8EncodeChar).flatten

/-- CIPRequest.tag_request_path (src/eip/eip.py lines 105 to 110).
The source writes b"\x91" + len(tag_name).to_bytes(1, "little")
+ tag_name.encode("utf-8") and appends one zero byte iff the total is
odd.  len(tag_name) counts characters, so to_bytes(1, "little") raises
OverflowError when the name has 256 or more characters; that failure is
modelled by returning none. -/
def CIPRequest.tag_request_path (tag_name : List Char) : Option (List Nat) :=
  if tag_name.length < 256 then
    let request_path_bytes := 0x91 :: tag_name.length :: utf8Encode tag_name
    some (if request_path_bytes.length % 2 ≠ 0 then request_path_bytes ++ [0]
          else request_path_bytes)
  else none

/-- Decoded CIP reply, fields as in CIPReply.__init__. -/
structure CIPReply where
  reply_service : List Nat
  reserved : List Nat
  general_status : List Nat
  extended_status_size : List Nat
  extended_status : List Nat
  reply_data : List Nat
deriving DecidableEq

/-- CIPReply.__init__ (src/eip/eip.py lines 118 to 126), field by field.
Note that the source slices extended_status as
reply_bytes[4:extended_status_byte_offset], with no 4 + on the upper
bound, while reply_data starts at 4 + extended_status_byte_offset; both
slices clamp silently on short buffers. -/
def CIPReply.ofBytes (reply_bytes : List Nat) : CIPReply :=
  let extended_status_size := pySlice reply_bytes 3 4
  let extended_status_byte_offset := fromBytesLE extended_status_size * 2
  { reply_service := pySlice reply_bytes 0 1
  , reserved := pySlice reply_bytes 1 2
  , general_status := pySlice reply_bytes 2 3
  , extended_status_size := extended_status_size
  , extended_status := pySlice reply_bytes 4 extended_status_byte_offset
  , reply_data := reply_bytes.drop (4 + extended_status_byte_offset) }

/-- DataAndAddressItem (src/eip/eip.py lines 133 to 154).  The length
field is always recomputed from the data by __init__, so only type_id
and data are state. -/
structure DataAndAddressItem where
  type_id : List Nat
  data : List Nat
deriving DecidableEq

/-- DataAndAddressItem.bytes: type_id + len(data).to_bytes(2, "little") + data. -/
def DataAndAddressItem.bytes (it : DataAndAddressItem) : List Nat :=
  it.type_id ++ toBytesLE2 it.data.length ++ it.data

/-- The NULL_ADDRESS_ITEM with empty data, as built by
CommonPacketFormat.__init__. -/
def DataAndAddressItem.nullAddressItem : DataAndAddressItem :=
  { type_id := [0, 0], data := [] }

/-- CommonPacketFormat.__init__ (src/eip/eip.py lines 158 to 166): the
initial packets list.  Fewer than one packet keeps the two synthetic
null address items; exactly one packet replaces the second slot; two or
more packets replace the whole list. -/
def CommonPacketFormat.initPackets :
    List DataAndAddressItem → List DataAndAddressItem
  | [] => [DataAndAddressItem.nullAddressItem, DataAndAddressItem.nullAddressItem]
  | [p] => [DataAndAddressItem.nullAddressItem, p]
  | ps => ps

/-- Loop of CommonPacketFormat.from_bytes (src/eip/eip.py lines 175 to
183), iterating the data region.  Each pass reads a 2-byte type id and
2-byte length at the current offset, slices the declared data (clamped,
as in Python), stores the item with self.packets[packet_index] = ...,
and advances by item length + 4.  The store raises IndexError when
packet_index is outside the packets list, modelled by none.  fuel
bounds the iteration count; none on fuel exhaustion (the wrapper below
always supplies enough fuel). -/
def CommonPacketFormat.fromBytesLoop (pb : List Nat) :
    Nat → Nat → List DataAndAddressItem → Nat → Option (List DataAndAddressItem)
  | fuel, packet_offset, packets, packet_index =>
    if packet_offset < pb.length then
      match fuel with
      | 0 => none
      | fuel + 1 =>
        let data_address_item_id := pySlice pb packet_offset (packet_offset + 2)
        let data_address_item_length :=
          fromBytesLE (pySlice pb (packet_offset + 2) (packet_offset + 4))
        let data_address_item_data :=
          pySlice pb (packet_offset + 4) (packet_offset + data_address_item_length + 4)
        if packet_index < packets.length then
          CommonPacketFormat.fromBytesLoop pb fuel
            (packet_offset + data_address_item_length + 4)
            (packets.set packet_index
              { type_id := data_address_item_id, data := data_address_item_data })
            (packet_index + 1)
        else none
    else some packets

/-- CommonPacketFormat.from_bytes as invoked on the decode paths
(EIP.send_rr_data and EIP.cip_reply_from_eip_message), which construct
CommonPacketFormat([]) first, so the loop starts from the two-element
null packets list of CommonPacketFormat.initPackets [].  Returns the
decoded item count and the final packets list, or none when the loop
raises IndexError. -/
def CommonPacketFormat.fromBytes (b : List Nat) :
    Option (Nat × List DataAndAddressItem) :=
  let item_count := fromBytesLE (pySlice b 0 2)
  let packet_bytes := b.drop 2
  match CommonPacketFormat.fromBytesLoop packet_bytes (packet_bytes.length + 1) 0
      (CommonPacketFormat.initPackets []) 0 with
  | some packets => some (item_count, packets)
  | none => none

/-- EIPMessage fields (src/eip/eip.py lines 215 to 224). -/
structure EIPMessage where
  command : List Nat
  length : List Nat
  session_handle_id : List Nat
  status : List Nat
  sender_context_data : List Nat
  command_options : List Nat
  command_data : List Nat
deriving DecidableEq

/-- EIPMessage.__init__ with the default status, sender context and
options arguments, as used by EIP.send_rr_data; the length field is
always recomputed from the command data. -/
def EIPMessage.make (command command_data session_handle_id : List Nat) :
    EIPMessage :=
  { command := command
  , length := toBytesLE2 command_data.length
  , session_handle_id := session_handle_id
  , status := [0, 0, 0, 0]
  , sender_context_data := [0, 0, 0, 0, 0, 0, 0, 0]
  , command_options := [0, 0, 0, 0]
  , command_data := command_data }

/-- EIPMessage.bytes (src/eip/eip.py lines 226 to 228): plain
concatenation of the fields in wire order. -/
def EIPMessage.bytes (m : EIPMessage) : List Nat :=
  m.command ++ m.length ++ m.session_handle_id ++ m.status ++
    m.sender_context_data ++ m.command_options ++ m.command_data

/-- EIPMessage.from_bytes (src/eip/eip.py lines 230 to 237): fixed
slices of the buffer; Python slicing clamps, so a short buffer yields
short or empty fields and never an error. -/
def EIPMessage.fromBytes (b : List Nat) : EIPMessage :=
  { command := pySlice b 0 2
  , length := pySlice b 2 4
  , session_handle_id := pySlice b 4 8
  , status := pySlice b 8 12
  , sender_context_data := pySlice b 12 20
  , command_options := pySlice b 20 24
  , command_data := b.drop 24 }

/-- EIP.__init__ (src/eip/eip.py line 254): the session handle starts as
eight zero bytes. -/
def EIP.initSessionHandleId : List Nat :=
  [0, 0, 0, 0, 0, 0, 0, 0]

/-- The encapsulation message built by EIP.send_rr_data (src/eip/eip.py
line 327): EIPMessage(b"\x6f\x00", command_specific_data,
self.session_handle_id). -/
def EIP.sendRRDataMessage (session_handle_id command_specific_data : List Nat) :
    EIPMessage :=
  EIPMessage.make [0x6f, 0] command_specific_data session_handle_id

/-- NSeriesEIP.MAXIMUM_LENGTH (src/eip/n_series.py line 166). -/
def NSeriesEIP.MAXIMUM_LENGTH : Nat := 502

/-- max_read_size in NSeriesEIP._multi_message_variable_read
(src/eip/n_series.py line 177): self.MAXIMUM_LENGTH - 8. -/
def NSeriesEIP.max_read_size : Nat := NSeriesEIP.MAXIMUM_LENGTH - 8

/-- Loop of NSeriesEIP._multi_message_variable_read (src/eip/n_series.py
lines 183 to 190), recording the (offset, read_size) pair of every
_simple_data_segment_read round trip.  read_size is max_read_size when
more than max_read_size bytes remain, else the remainder; the offset
advances by max_read_size each pass regardless of read_size.  fuel
bounds the iteration count (the wrapper supplies enough). -/
def NSeriesEIP.multiMessageVariableReadLoop (size : Nat) :
    Nat → Nat → List (Nat × Nat)
  | fuel, offset =>
    if offset < size then
      match fuel with
      | 0 => []
      | fuel + 1 =>
        let read_size :=
          if size - offset > NSeriesEIP.max_read_size then NSeriesEIP.max_read_size
          else size - offset
        (offset, read_size) ::
          NSeriesEIP.multiMessageVariableReadLoop size fuel
            (offset + NSeriesEIP.max_read_size)
    else []

/-- The read round trips performed by _multi_message_variable_read for a
variable of declared size, starting from the default offset 0. -/
def NSeriesEIP.multiMessageVariableReadRequests (size : Nat) : List (Nat × Nat) :=
  NSeriesEIP.multiMessageVariableReadLoop size size 0

/-- max_write_size in NSeriesEIP._multi_message_variable_write
(src/eip/n_series.py line 205). -/
def NSeriesEIP.max_write_size : Nat := 400

/-- Loop of NSeriesEIP._multi_message_variable_write (src/eip/n_series.py
lines 207 to 216), recording for every _simple_data_segment_write round
trip the offset, the declared write_size, and the data chunk actually
passed, which the source slices as
cip_datatype_object.data[offset:offset + write_size].  The offset
advances by max_write_size each pass regardless of write_size. -/
def NSeriesEIP.multiMessageVariableWriteLoop (data : List Nat) (size : Nat) :
    Nat → Nat → List (Nat × Nat × List Nat)
  | fuel, offset =>
    if offset < size then
      match fuel with
      | 0 => []
      | fuel + 1 =>
        let write_size :=
          if size - offset > NSeriesEIP.max_write_size then NSeriesEIP.max_write_size
          else size - offset
        (offset, write_size, pySlice data offset (offset + write_size)) ::
          NSeriesEIP.multiMessageVariableWriteLoop data size fuel
            (offset + NSeriesEIP.max_write_size)
    else []

/-- The write round trips performed by _multi_message_variable_write for
a value of declared size with serialized data, starting from the default
offset 0. -/
def NSeriesEIP.multiMessageVariableWriteRequests (data : List Nat) (size : Nat) :
    List (Nat × Nat × List Nat) :=
  NSeriesEIP.multiMessageVariableWriteLoop data size size 0

/-- Member-chain walk of NSeriesEIP.get_data_instance for a structure
variable (src/eip/n_series.py lines 340 to 349): while
member_instance_id != 0, fetch the Variable Type Object reply for that
instance and continue with int.from_bytes(reply.next_instance_id,
"little").  The control flow of the loop depends only on the
next_instance_id chain, so the controller is abstracted to the map
nextInstanceId from instance id to decoded next instance id.  The
source loop has no iteration bound; fuel counts loop iterations and
none means the loop has not terminated within fuel iterations.  On
termination the visited member instance ids are returned in chain
order. -/
def NSeriesEIP.memberChainWalk (nextInstanceId : Nat → Nat) :
    Nat → Nat → Option (List Nat)
  | fuel, member_instance_id =>
    if member_instance_id ≠ 0 then
      match fuel with
      | 0 => none
      | fuel + 1 =>
        (NSeriesEIP.memberChainWalk nextInstanceId fuel
            (nextInstanceId member_instance_id)).map
          (fun rest => member_instance_id :: rest)
    else some []

/-- The CIP data type classes that select the segmented transfer path in
NSeriesEIP.read_variable and NSeriesEIP.write_variable; `other` stands
for every CIP data type outside the isinstance tuple (CIPString,
CIPArray, CIPStructure, CIPAbbreviatedStructure). -/
inductive CipKind
  | cipString
  | cipArray
  | cipStructure
  | cipAbbreviatedStructure
  | other
deriving DecidableEq

/-- The isinstance(obj, (CIPString, CIPArray, CIPStructure,
CIPAbbreviatedStructure)) test; isinstance(None, ...) is False. -/
def isinstanceSegmented : Option CipKind → Bool
  | some CipKind.cipString => true
  | some CipKind.cipArray => true
  | some CipKind.cipStructure => true
  | some CipKind.cipAbbreviatedStructure => true
  | _ => false

/-- Uncontrolled Python exception raised by calling a method on None. -/
inductive PyExn
  | attributeErrorNone
deriving DecidableEq

/-- Abstract outcome of a variable operation when the registry lookup
succeeds (the network exchange itself is outside the embedding). -/
inductive VariableOpOutcome
  | segmentedRead
  | directRead
  | segmentedWrite
  | directWrite
deriving DecidableEq

/-- NSeriesEIP.read_variable (src/eip/n_series.py lines 218 to 226).
self.variables.get(variable_name) returns None for an absent name; the
isinstance test on None is False, so the else branch runs and
cip_datatype_object.from_bytes(...) raises AttributeError on None. -/
def NSeriesEIP.read_variable (variableRegistry : String → Option CipKind)
    (variable_name : String) : Except PyExn VariableOpOutcome :=
  let cip_datatype_object := variableRegistry variable_name
  if isinstanceSegmented cip_datatype_object then
    Except.ok VariableOpOutcome.segmentedRead
  else
    match cip_datatype_object with
    | some _ => Except.ok VariableOpOutcome.directRead
    | none => Except.error PyExn.attributeErrorNone

/-- NSeriesEIP.write_variable (src/eip/n_series.py lines 194 to 201).
cip_datatype_object.from_value(data) runs before the isinstance test,
so an absent name raises AttributeError on None immediately. -/
def NSeriesEIP.write_variable (variableRegistry : String → Option CipKind)
    (variable_name : String) : Except PyExn VariableOpOutcome :=
  match variableRegistry variable_name with
  | none => Except.error PyExn.attributeErrorNone
  | some k =>
      if isinstanceSegmented (some k) then Except.ok VariableOpOutcome.segmentedWrite
      else Except.ok VariableOpOutcome.directWrite

/-- Concrete CIP reply with extended_status_size byte 3 and twelve
bytes of body: long enough for the six extended status bytes the claim
expects at offsets 4 to 9 and two reply data bytes. -/
def exReplyExtStatus : List Nat :=
  [0x8c, 0, 0, 3, 10, 11, 12, 13, 14, 15, 20, 21]

/-- Concrete CIP reply with extended_status_size byte 3 but only four
bytes of body, shorter than the required 4 + 2 * 3 = 10 bytes. -/
def exReplyShort : List Nat :=
  [0x8c, 0, 0, 3]

/-- Concrete encapsulation buffer of two bytes, far below the 24-byte
header. -/
def exShortFrame : List Nat :=
  [0x6f, 0]

/-- Concrete CPF buffer: item count 1, one item of type id 0 declaring
ten data bytes while zero remain in the buffer. -/
def exCpfTruncatedItem : List Nat :=
  [1, 0, 0, 0, 10, 0]

/-- Concrete CPF buffer: item count 3 and three well-formed zero-length
items. -/
def exCpfThreeItems : List Nat :=
  [3, 0, 0, 0, 0, 0, 0, 0, 0, 0, 0, 0, 0, 0]

/-! ## Helper lemmas -/

theorem pySlice_length (b : List Nat) (i j : Nat) :
    (pySlice b i j).length = min j b.length - i := by
  simp [pySlice]

theorem pySlice_append (a b : List Nat) (i j : Nat) :
    pySlice (a ++ b) (a.length + i) (a.length + j) = pySlice b i j := by
  simp [pySlice, List.take_append, List.drop_append]

theorem pySlice_append_zero (a b : List Nat) (j : Nat) :
    pySlice (a ++ b) a.length (a.length + j) = pySlice b 0 j := by
  have h := pySlice_append a b 0 j
  simpa using h

theorem pySlice_four_plus (p0 p1 p2 p3 : Nat) (d tail : List Nat) :
    pySlice (p0 :: p1 :: p2 :: p3 :: (d ++ tail)) 4 (d.length + 4) = d := by
  show (List.take (d.length + 4) (p0 :: p1 :: p2 :: p3 :: (d ++ tail))).drop 4 = d
  rw [Nat.add_comm d.length 4, List.take_add]
  show (([p0, p1, p2, p3] : List Nat) ++ List.take d.length (d ++ tail)).drop 4 = d
  rw [List.take_left]
  rfl

theorem fromBytesLE_toBytesLE2 (n : Nat) (h : n < 65536) :
    fromBytesLE (toBytesLE2 n) = n := by
  simp [fromBytesLE, toBytesLE2]
  omega

/-! ## Claim C1 -/

/-- C1: the claim states that the member chain walk of
NSeriesEIP.get_data_instance imposes a maximum chain-length guard and
rejects a cyclic next_instance_id with a ChainTooLong error.  The source
loop has no guard at all: on the controller whose Variable Type Object at
every instance reports next_instance_id 1, starting from member instance
id 1, the loop is still running after every number of iterations, i.e.
it never reaches the zero terminator and never raises any error. -/
theorem c1_member_chain_has_no_guard :
    ∀ fuel : Nat, NSeriesEIP.memberChainWalk (fun _ => 1) fuel 1 = none := by
  intro fuel
  induction fuel with
  | zero => rfl
  | succ n ih => simp [NSeriesEIP.memberChainWalk, ih]

/-! ## Claim C2 -/

/-- C2: for extended-status-size byte k = 3 and a 12-byte reply, the code
yields extended_status = reply_bytes[4:6] (the slice upper bound misses
the 4 +), not the six bytes at offsets 4..9 the claim requires; and a
4-byte reply, shorter than 4 + 2 k = 10, decodes without any error into
empty extended_status and reply_data instead of being rejected. -/
theorem c2_extended_status_slice_bug :
    (CIPReply.ofBytes exReplyExtStatus).extended_status = [10, 11] ∧
    pySlice exReplyExtStatus 4 (4 + 2 * 3) = [10, 11, 12, 13, 14, 15] ∧
    (CIPReply.ofBytes exReplyExtStatus).extended_status ≠
      pySlice exReplyExtStatus 4 (4 + 2 * 3) ∧
    (CIPReply.ofBytes exReplyExtStatus).reply_data = [20, 21] ∧
    CIPReply.ofBytes exReplyShort =
      { reply_service := [0x8c], reserved := [0], general_status := [0]
      , extended_status_size := [3], extended_status := [], reply_data := [] } := by
  decide

/-! ## Claim C5 -/

/-- C5 counterexample: a two-byte buffer decodes without any failure into
an encapsulation message whose fields past the buffer are empty — the
decode is silently truncated, contradicting the claimed FrameTooShort
error. -/
theorem c5_counterexample_short_frame_decodes :
    exShortFrame.length < 24 ∧
    EIPMessage.fromBytes exShortFrame =
      { command := [0x6f, 0], length := [], session_handle_id := []
      , status := [], sender_context_data := [], command_options := []
      , command_data := [] } := by
  decide

/-- C5 amended: decoding an encapsulation message from a buffer of fewer
than 24 bytes does not fail; EIPMessage.from_bytes is total and silently
truncates, producing a message with short or empty fields — in
particular an empty payload and a command_options field shorter than its
4-byte wire size. -/
theorem c5_amended_short_frame_truncates (b : List Nat) (h : b.length < 24) :
    (EIPMessage.fromBytes b).command_data = [] ∧
    (EIPMessage.fromBytes b).command_options.length < 4 := by
  constructor
  · show b.drop 24 = []
    exact List.drop_eq_nil_iff.mpr (by omega)
  · show (pySlice b 20 24).length < 4
    rw [pySlice_length]
    omega

theorem c5_amended_witness :
    ([1, 2, 3] : List Nat).length < 24 ∧
    (EIPMessage.fromBytes [1, 2, 3]).command_data = [] ∧
    (EIPMessage.fromBytes [1, 2, 3]).command_options.length < 4 :=
  ⟨by decide, c5_amended_short_frame_truncates [1, 2, 3] (by decide)⟩

/-! ## Claim C8 -/

/-- C8: looking up an absent variable name yields None from
self.variables.get, and both read_variable and write_variable then call
a method on None, raising an uncontrolled AttributeError — there is no
NameNotFound error anywhere in the code. -/
theorem c8_absent_name_raises_attribute_error
    (variableRegistry : String → Option CipKind) (variable_name : String)
    (h : variableRegistry variable_name = none) :
    NSeriesEIP.read_variable variableRegistry variable_name =
      Except.error PyExn.attributeErrorNone ∧
    NSeriesEIP.write_variable variableRegistry variable_name =
      Except.error PyExn.attributeErrorNone := by
  constructor
  · simp [NSeriesEIP.read_variable, h, isinstanceSegmented]
  · simp [NSeriesEIP.write_variable, h]

theorem c8_witness :
    NSeriesEIP.read_variable (fun _ => none) "Counter" =
      Except.error PyExn.attributeErrorNone ∧
    NSeriesEIP.write_variable (fun _ => none) "Counter" =
      Except.error PyExn.attributeErrorNone :=
  c8_absent_name_raises_attribute_error (fun _ => none) "Counter" rfl

/-! ## Claim C10 -/

/-- C10: right after EIP.__init__ the session handle is eight bytes, and
every message EIP.send_rr_data builds with it serializes with 28 bytes
of fields before the payload instead of the fixed 24-byte header: the
payload starts at byte offset 28. -/
theorem c10_oversized_initial_session_handle :
    EIP.initSessionHandleId.length = 8 ∧
    ∀ csd : List Nat, csd.length < 65536 →
      ∃ pre : List Nat,
        (EIP.sendRRDataMessage EIP.initSessionHandleId csd).bytes = pre ++ csd ∧
        pre.length = 28 :=
  ⟨rfl, fun csd _ =>
    ⟨[0x6f, 0, csd.length % 256, csd.length / 256 % 256,
      0, 0, 0, 0, 0, 0, 0, 0, 0, 0, 0, 0,
      0, 0, 0, 0, 0, 0, 0, 0, 0, 0, 0, 0], rfl, rfl⟩⟩

theorem c10_witness :
    EIP.initSessionHandleId.length = 8 ∧
    ∃ pre : List Nat,
      (EIP.sendRRDataMessage EIP.initSessionHandleId [9, 9, 9]).bytes =
        pre ++ [9, 9, 9] ∧
      pre.length = 28 :=
  ⟨c10_oversized_initial_session_handle.1,
   c10_oversized_initial_session_handle.2 [9, 9, 9] (by decide)⟩

/-! ## Counterexamples for C6, C7 and C9 -/

/-- C6 counterexample: a CPF buffer whose single item declares ten data
bytes while zero remain decodes without any error to an item with empty
data — the overlong declared length is silently clamped instead of
raising the claimed TruncatedItem error. -/
theorem c6_counterexample_truncated_item_accepted :
    CommonPacketFormat.fromBytes exCpfTruncatedItem =
      some (1, [{ type_id := [0, 0], data := [] },
        DataAndAddressItem.nullAddressItem]) ∧
    fromBytesLE (pySlice (exCpfTruncatedItem.drop 2) 2 4) = 10 ∧
    ([] : List Nat).length ≠ fromBytesLE (pySlice (exCpfTruncatedItem.drop 2) 2 4) := by
  decide

/-- C7 counterexample: a CPF buffer with three well-formed zero-length
items makes from_bytes assign self.packets[2] on the two-element packets
list built by CommonPacketFormat([]) — an IndexError, so decoding fails
rather than producing the three items. -/
theorem c7_counterexample_three_items_index_error :
    CommonPacketFormat.fromBytes exCpfThreeItems = none := by
  decide

/-- C9 counterexample: for the one-character tag name U+00E9, the UTF-8
byte length is L = 2 (at most 255), yet the encoded path carries length
byte 1 — the character count — not the byte length the claim requires. -/
theorem c9_counterexample_non_ascii_length_byte :
    (utf8Encode [Char.ofNat 233]).length = 2 ∧
    (utf8Encode [Char.ofNat 233]).length ≤ 255 ∧
    CIPRequest.tag_request_path [Char.ofNat 233] = some [0x91, 1, 0xC3, 0xA9] ∧
    ([0x91, 1, 0xC3, 0xA9] : List Nat).get? 1 = some 1 ∧
    (1 : Nat) ≠ (utf8Encode [Char.ofNat 233]).length := by
  decide

/-! ## Claims C3 and C4: segmentation loops -/

theorem multiReadLoop_eq (size : Nat) :
    ∀ fuel offset, (size - offset + 493) / 494 ≤ fuel →
      NSeriesEIP.multiMessageVariableReadLoop size fuel offset =
        (List.range ((size - offset + 493) / 494)).map
          (fun i => (offset + 494 * i, min (size - (offset + 494 * i)) 494)) := by
  intro fuel
  induction fuel with
  | zero =>
    intro offset h
    have h0 : ¬ offset < size := by omega
    rw [NSeriesEIP.multiMessageVariableReadLoop]
    rw [show (size - offset + 493) / 494 = 0 from by omega]
    simp [h0]
  | succ fuel ih =>
    intro offset h
    by_cases hc : offset < size
    · rw [NSeriesEIP.multiMessageVariableReadLoop]
      simp only [hc, if_true, NSeriesEIP.max_read_size, NSeriesEIP.MAXIMUM_LENGTH]
      rw [ih (offset + (502 - 8)) (by omega)]
      rw [show (size - offset + 493) / 494 =
            (size - (offset + (502 - 8)) + 493) / 494 + 1 from by omega]
      rw [List.range_succ_eq_map, List.map_cons, List.map_map]
      have hhead : (if size - offset > 502 - 8 then 502 - 8 else size - offset)
          = min (size - (offset + 494 * 0)) 494 := by
        split <;> omega
      rw [hhead]
      have htail : ∀ i ∈ List.range ((size - (offset + (502 - 8)) + 493) / 494),
          ((fun i => (offset + 494 * i, min (size - (offset + 494 * i)) 494)) ∘
              Nat.succ) i
            = (fun i => (offset + (502 - 8) + 494 * i,
                min (size - (offset + (502 - 8) + 494 * i)) 494)) i := by
        intro i _
        simp only [Function.comp_apply, Prod.mk.injEq, Nat.succ_eq_add_one]
        constructor <;> omega
      rw [List.map_congr_left htail]
      rw [show offset + 494 * 0 = offset from by omega]
    · rw [NSeriesEIP.multiMessageVariableReadLoop]
      rw [show (size - offset + 493) / 494 = 0 from by omega]
      simp [hc]

/-- C3: the read chunk ceiling is MAXIMUM_LENGTH - 8 = 494, the
segmented read for a variable of declared size S issues exactly
ceil(S / 494) round trips, the i-th at offset 494 * i (the loop advances
the offset by max_read_size each pass) requesting min(S - offset, 494)
bytes. -/
theorem c3_segmented_read_round_trips (S : Nat) (hS : 0 < S) :
    NSeriesEIP.max_read_size = 494 ∧
    NSeriesEIP.multiMessageVariableReadRequests S =
      (List.range ((S + 493) / 494)).map
        (fun i => (494 * i, min (S - 494 * i) 494)) ∧
    (NSeriesEIP.multiMessageVariableReadRequests S).length = (S + 493) / 494 := by
  have hmap := multiReadLoop_eq S S 0 (by omega)
  refine ⟨rfl, ?_, ?_⟩
  · rw [NSeriesEIP.multiMessageVariableReadRequests, hmap]
    simp
  · rw [NSeriesEIP.multiMessageVariableReadRequests, hmap]
    simp

theorem c3_witness :
    (0 : Nat) < 1000 ∧
    (NSeriesEIP.max_read_size = 494 ∧
     NSeriesEIP.multiMessageVariableReadRequests 1000 =
       (List.range ((1000 + 493) / 494)).map
         (fun i => (494 * i, min (1000 - 494 * i) 494)) ∧
     (NSeriesEIP.multiMessageVariableReadRequests 1000).length = (1000 + 493) / 494) :=
  ⟨by decide, c3_segmented_read_round_trips 1000 (by decide)⟩

theorem multiWriteLoop_eq (data : List Nat) (size : Nat) :
    ∀ fuel offset, (size - offset + 399) / 400 ≤ fuel →
      NSeriesEIP.multiMessageVariableWriteLoop data size fuel offset =
        (List.range ((size - offset + 399) / 400)).map
          (fun i => (offset + 400 * i, min (size - (offset + 400 * i)) 400,
            pySlice data (offset + 400 * i)
              (offset + 400 * i + min (size - (offset + 400 * i)) 400))) := by
  intro fuel
  induction fuel with
  | zero =>
    intro offset h
    have h0 : ¬ offset < size := by omega
    rw [NSeriesEIP.multiMessageVariableWriteLoop]
    rw [show (size - offset + 399) / 400 = 0 from by omega]
    simp [h0]
  | succ fuel ih =>
    intro offset h
    by_cases hc : offset < size
    · rw [NSeriesEIP.multiMessageVariableWriteLoop]
      simp only [hc, if_true, NSeriesEIP.max_write_size]
      rw [ih (offset + 400) (by omega)]
      rw [show (size - offset + 399) / 400 =
            (size - (offset + 400) + 399) / 400 + 1 from by omega]
      rw [List.range_succ_eq_map, List.map_cons, List.map_map]
      have hws : (if size - offset > 400 then 400 else size - offset)
          = min (size - (offset + 400 * 0)) 400 := by
        split <;> omega
      rw [hws]
      have htail : ∀ i ∈ List.range ((size - (offset + 400) + 399) / 400),
          ((fun i => (offset + 400 * i, min (size - (offset + 400 * i)) 400,
              pySlice data (offset + 400 * i)
                (offset + 400 * i + min (size - (offset + 400 * i)) 400))) ∘
              Nat.succ) i
            = (fun i => (offset + 400 + 400 * i,
                min (size - (offset + 400 + 400 * i)) 400,
                pySlice data (offset + 400 + 400 * i)
                  (offset + 400 + 400 * i +
                    min (size - (offset + 400 + 400 * i)) 400))) i := by
        intro i _
        simp only [Function.comp_apply, Nat.succ_eq_add_one]
        rw [show offset + 400 * (i + 1) = offset + 400 + 400 * i from by omega]
      rw [List.map_congr_left htail]
      rw [show offset + 400 * 0 = offset from by omega]
    · rw [NSeriesEIP.multiMessageVariableWriteLoop]
      rw [show (size - offset + 399) / 400 = 0 from by omega]
      simp [hc]

theorem multiWriteLoop_sum (data : List Nat) (size : Nat) :
    ∀ fuel offset, (size - offset + 399) / 400 ≤ fuel →
      ((NSeriesEIP.multiMessageVariableWriteLoop data size fuel offset).map
        (fun x => x.2.1)).sum = size - offset := by
  intro fuel
  induction fuel with
  | zero =>
    intro offset h
    have h0 : ¬ offset < size := by omega
    rw [NSeriesEIP.multiMessageVariableWriteLoop]
    simp [h0]
    omega
  | succ fuel ih =>
    intro offset h
    by_cases hc : offset < size
    · rw [NSeriesEIP.multiMessageVariableWriteLoop]
      simp only [hc, if_true, NSeriesEIP.max_write_size, List.map_cons, List.sum_cons]
      rw [ih (offset + 400) (by omega)]
      split <;> omega
    · rw [NSeriesEIP.multiMessageVariableWriteLoop]
      simp [hc]
      omega

/-- C4: the segmented write of a value of declared size S with serialized
data of length S uses the fixed 400-byte ceiling: the round trips are at
offsets 400 * i (the loop advances the offset by max_write_size each
pass regardless of the final chunk), the declared sizes sum to S, every
chunk carries exactly its declared write_size bytes of the data, and
every chunk before the last declares exactly 400 bytes. -/
theorem c4_segmented_write_chunking (S : Nat) (data : List Nat) (hS : 0 < S)
    (hdata : data.length = S) :
    NSeriesEIP.max_write_size = 400 ∧
    NSeriesEIP.multiMessageVariableWriteRequests data S =
      (List.range ((S + 399) / 400)).map
        (fun i => (400 * i, min (S - 400 * i) 400,
          pySlice data (400 * i) (400 * i + min (S - 400 * i) 400))) ∧
    ((NSeriesEIP.multiMessageVariableWriteRequests data S).map
      (fun x => x.2.1)).sum = S ∧
    (∀ x ∈ NSeriesEIP.multiMessageVariableWriteRequests data S,
      x.2.2.length = x.2.1) ∧
    (∀ i, i + 1 < (S + 399) / 400 → min (S - 400 * i) 400 = 400) := by
  have hmap := multiWriteLoop_eq data S S 0 (by omega)
  have hmap0 : NSeriesEIP.multiMessageVariableWriteRequests data S =
      (List.range ((S + 399) / 400)).map
        (fun i => (400 * i, min (S - 400 * i) 400,
          pySlice data (400 * i) (400 * i + min (S - 400 * i) 400))) := by
    rw [NSeriesEIP.multiMessageVariableWriteRequests, hmap]
    simp
  refine ⟨rfl, hmap0, ?_, ?_, ?_⟩
  · have hsum := multiWriteLoop_sum data S S 0 (by omega)
    rw [NSeriesEIP.multiMessageVariableWriteRequests, hsum]
    omega
  · intro x hx
    rw [hmap0] at hx
    obtain ⟨i, hi, hfx⟩ := List.mem_map.mp hx
    rw [List.mem_range] at hi
    subst hfx
    show (pySlice data (400 * i) (400 * i + min (S - 400 * i) 400)).length
      = min (S - 400 * i) 400
    rw [pySlice_length, hdata]
    omega
  · intro i hi
    omega

theorem c4_witness :
    (0 : Nat) < 900 ∧ (List.replicate 900 (0 : Nat)).length = 900 ∧
    (NSeriesEIP.max_write_size = 400 ∧
     NSeriesEIP.multiMessageVariableWriteRequests (List.replicate 900 0) 900 =
       (List.range ((900 + 399) / 400)).map
         (fun i => (400 * i, min (900 - 400 * i) 400,
           pySlice (List.replicate 900 0) (400 * i)
             (400 * i + min (900 - 400 * i) 400))) ∧
     ((NSeriesEIP.multiMessageVariableWriteRequests (List.replicate 900 0) 900).map
       (fun x => x.2.1)).sum = 900 ∧
     (∀ x ∈ NSeriesEIP.multiMessageVariableWriteRequests (List.replicate 900 0) 900,
       x.2.2.length = x.2.1) ∧
     (∀ i, i + 1 < (900 + 399) / 400 → min (900 - 400 * i) 400 = 400)) :=
  ⟨by decide, List.length_replicate 900 0,
   c4_segmented_write_chunking 900 (List.replicate 900 0) (by decide)
     (List.length_replicate 900 0)⟩

/-! ## Claims C6 and C7: CPF decode loop lemmas -/

theorem fromBytesLoop_stop (pb : List Nat) (fuel packet_offset : Nat)
    (packets : List DataAndAddressItem) (packet_index : Nat)
    (h : ¬ packet_offset < pb.length) :
    CommonPacketFormat.fromBytesLoop pb fuel packet_offset packets packet_index
      = some packets := by
  rw [CommonPacketFormat.fromBytesLoop.eq_def]
  simp [h]

theorem fromBytesLoop_step (pb : List Nat) (fuel packet_offset : Nat)
    (packets : List DataAndAddressItem) (packet_index : Nat)
    (ho : packet_offset < pb.length) (hi : packet_index < packets.length) :
    CommonPacketFormat.fromBytesLoop pb (fuel + 1) packet_offset packets packet_index
      = CommonPacketFormat.fromBytesLoop pb fuel
          (packet_offset +
            fromBytesLE (pySlice pb (packet_offset + 2) (packet_offset + 4)) + 4)
          (packets.set packet_index
            { type_id := pySlice pb packet_offset (packet_offset + 2)
            , data := pySlice pb (packet_offset + 4)
                (packet_offset +
                  fromBytesLE (pySlice pb (packet_offset + 2) (packet_offset + 4)) + 4) })
          (packet_index + 1) := by
  conv_lhs => rw [CommonPacketFormat.fromBytesLoop.eq_def]
  simp [ho, hi]

/-- C6 amended: CPF decoding advances by 4 + item_length per item, but an
item whose declared length would read past the end of the buffer is not
rejected: the data slice is clamped to the bytes that remain, the decode
completes without error and silently yields the shortened item. -/
theorem c6_amended_declared_length_clamped (t0 t1 l0 l1 : Nat) (payload : List Nat)
    (h : payload.length < fromBytesLE [l0, l1]) :
    CommonPacketFormat.fromBytes ([1, 0] ++ [t0, t1, l0, l1] ++ payload) =
      some (1, [{ type_id := [t0, t1], data := payload },
        DataAndAddressItem.nullAddressItem]) := by
  have hloop : CommonPacketFormat.fromBytesLoop (t0 :: t1 :: l0 :: l1 :: payload)
      ((t0 :: t1 :: l0 :: l1 :: payload : List Nat).length + 1) 0
      [DataAndAddressItem.nullAddressItem, DataAndAddressItem.nullAddressItem] 0
      = some [{ type_id := [t0, t1], data := payload },
          DataAndAddressItem.nullAddressItem] := by
    have ho : (0 : Nat) < (t0 :: t1 :: l0 :: l1 :: payload : List Nat).length := by
      simp
    have hi : (0 : Nat) <
        ([DataAndAddressItem.nullAddressItem,
          DataAndAddressItem.nullAddressItem] : List DataAndAddressItem).length := by
      simp
    rw [fromBytesLoop_step _ _ _ _ _ ho hi]
    have hs2 : pySlice (t0 :: t1 :: l0 :: l1 :: payload) (0 + 2) (0 + 4)
        = [l0, l1] := rfl
    rw [hs2]
    have hs1 : pySlice (t0 :: t1 :: l0 :: l1 :: payload) 0 (0 + 2) = [t0, t1] := rfl
    rw [hs1]
    have hs3 : pySlice (t0 :: t1 :: l0 :: l1 :: payload) (0 + 4)
        (0 + fromBytesLE [l0, l1] + 4) = payload := by
      show ((t0 :: t1 :: l0 :: l1 :: payload).take
        (0 + fromBytesLE [l0, l1] + 4)).drop (0 + 4) = payload
      rw [List.take_of_length_le (by simp; omega)]
      rfl
    rw [hs3]
    rw [fromBytesLoop_stop _ _ _ _ _ (by simp; omega)]
    rfl
  show (match CommonPacketFormat.fromBytesLoop (t0 :: t1 :: l0 :: l1 :: payload)
      ((t0 :: t1 :: l0 :: l1 :: payload : List Nat).length + 1) 0
      [DataAndAddressItem.nullAddressItem, DataAndAddressItem.nullAddressItem] 0 with
    | some packets => some (1, packets)
    | none => none)
    = some (1, [{ type_id := [t0, t1], data := payload },
        DataAndAddressItem.nullAddressItem])
  rw [hloop]

theorem c6_amended_witness :
    ([7, 8] : List Nat).length < fromBytesLE [10, 0] ∧
    CommonPacketFormat.fromBytes ([1, 0] ++ [178, 0, 10, 0] ++ [7, 8]) =
      some (1, [{ type_id := [178, 0], data := [7, 8] },
        DataAndAddressItem.nullAddressItem]) :=
  ⟨by decide, c6_amended_declared_length_clamped 178 0 10 0 [7, 8] (by decide)⟩

theorem pySlice_four_plus_nil (p0 p1 p2 p3 : Nat) (d : List Nat) :
    pySlice (p0 :: p1 :: p2 :: p3 :: d) 4 (d.length + 4) = d := by
  have h := pySlice_four_plus p0 p1 p2 p3 d []
  simpa using h

theorem pySlice_after_item (p0 p1 p2 p3 : Nat) (d tail : List Nat) (i j : Nat) :
    pySlice (p0 :: p1 :: p2 :: p3 :: (d ++ tail)) (d.length + 4 + i)
      (d.length + 4 + j) = pySlice tail i j := by
  have h := pySlice_append (p0 :: p1 :: p2 :: p3 :: d) tail i j
  have hl : (p0 :: p1 :: p2 :: p3 :: d : List Nat).length = d.length + 4 := by
    simp
  rw [hl] at h
  exact h

theorem fromBytesLoop_item (pb : List Nat) (o t0 t1 : Nat) (d : List Nat)
    (fuel : Nat) (packets : List DataAndAddressItem) (packet_index : Nat)
    (hs1 : pySlice pb o (o + 2) = [t0, t1])
    (hs2 : pySlice pb (o + 2) (o + 4) = toBytesLE2 d.length)
    (hd : d.length < 65536)
    (hs3 : pySlice pb (o + 4) (o + d.length + 4) = d)
    (ho : o < pb.length) (hi : packet_index < packets.length) :
    CommonPacketFormat.fromBytesLoop pb (fuel + 1) o packets packet_index
      = CommonPacketFormat.fromBytesLoop pb fuel (o + d.length + 4)
          (packets.set packet_index { type_id := [t0, t1], data := d })
          (packet_index + 1) := by
  rw [fromBytesLoop_step _ _ _ _ _ ho hi]
  rw [hs2, fromBytesLE_toBytesLE2 _ hd, hs1, hs3]

theorem fromBytesLoop_two_items (t0 t1 u0 u1 x0 x1 y0 y1 : Nat) (d0 d1 : List Nat)
    (hx : ([x0, x1] : List Nat) = toBytesLE2 d0.length)
    (hy : ([y0, y1] : List Nat) = toBytesLE2 d1.length)
    (h0 : d0.length < 65536) (h1 : d1.length < 65536) :
    CommonPacketFormat.fromBytesLoop
        (t0 :: t1 :: x0 :: x1 :: (d0 ++ (u0 :: u1 :: y0 :: y1 :: d1)))
        ((t0 :: t1 :: x0 :: x1 :: (d0 ++ (u0 :: u1 :: y0 :: y1 :: d1))
          : List Nat).length + 1)
        0 [DataAndAddressItem.nullAddressItem, DataAndAddressItem.nullAddressItem] 0
      = some [{ type_id := [t0, t1], data := d0 },
          { type_id := [u0, u1], data := d1 }] := by
  have hlen : (t0 :: t1 :: x0 :: x1 :: (d0 ++ (u0 :: u1 :: y0 :: y1 :: d1))
      : List Nat).length = d0.length + d1.length + 8 := by
    simp only [List.length_cons, List.length_append]
    omega
  have hs1 : pySlice (t0 :: t1 :: x0 :: x1 :: (d0 ++ (u0 :: u1 :: y0 :: y1 :: d1)))
      0 (0 + 2) = [t0, t1] := rfl
  have hs2 : pySlice (t0 :: t1 :: x0 :: x1 :: (d0 ++ (u0 :: u1 :: y0 :: y1 :: d1)))
      (0 + 2) (0 + 4) = toBytesLE2 d0.length := by
    rw [← hx]
    rfl
  have hs3 : pySlice (t0 :: t1 :: x0 :: x1 :: (d0 ++ (u0 :: u1 :: y0 :: y1 :: d1)))
      (0 + 4) (0 + d0.length + 4) = d0 := by
    simp only [Nat.zero_add]
    exact pySlice_four_plus t0 t1 x0 x1 d0 (u0 :: u1 :: y0 :: y1 :: d1)
  have ho1 : (0 : Nat) < (t0 :: t1 :: x0 :: x1 ::
      (d0 ++ (u0 :: u1 :: y0 :: y1 :: d1)) : List Nat).length := by
    simp
  have hi1 : (0 : Nat) < ([DataAndAddressItem.nullAddressItem,
      DataAndAddressItem.nullAddressItem] : List DataAndAddressItem).length := by
    simp
  rw [fromBytesLoop_item _ _ _ _ _ _ _ _ hs1 hs2 h0 hs3 ho1 hi1]
  simp only [Nat.zero_add]
  rw [hlen]
  rw [show d0.length + d1.length + 8 = d0.length + d1.length + 7 + 1 from by omega]
  have ht1 : pySlice (t0 :: t1 :: x0 :: x1 :: (d0 ++ (u0 :: u1 :: y0 :: y1 :: d1)))
      (d0.length + 4) (d0.length + 4 + 2) = [u0, u1] := by
    have h := pySlice_after_item t0 t1 x0 x1 d0 (u0 :: u1 :: y0 :: y1 :: d1) 0 2
    rw [Nat.add_zero] at h
    rw [h]
    rfl
  have ht2 : pySlice (t0 :: t1 :: x0 :: x1 :: (d0 ++ (u0 :: u1 :: y0 :: y1 :: d1)))
      (d0.length + 4 + 2) (d0.length + 4 + 4) = toBytesLE2 d1.length := by
    have h := pySlice_after_item t0 t1 x0 x1 d0 (u0 :: u1 :: y0 :: y1 :: d1) 2 4
    rw [h, ← hy]
    rfl
  have ht3 : pySlice (t0 :: t1 :: x0 :: x1 :: (d0 ++ (u0 :: u1 :: y0 :: y1 :: d1)))
      (d0.length + 4 + 4) (d0.length + 4 + d1.length + 4) = d1 := by
    have h := pySlice_after_item t0 t1 x0 x1 d0 (u0 :: u1 :: y0 :: y1 :: d1)
      4 (d1.length + 4)
    rw [show d0.length + 4 + d1.length + 4 = d0.length + 4 + (d1.length + 4)
      from by omega]
    rw [h]
    exact pySlice_four_plus_nil u0 u1 y0 y1 d1
  have ho2 : d0.length + 4 < (t0 :: t1 :: x0 :: x1 ::
      (d0 ++ (u0 :: u1 :: y0 :: y1 :: d1)) : List Nat).length := by
    rw [hlen]
    omega
  have hi2 : (1 : Nat) < (([DataAndAddressItem.nullAddressItem,
      DataAndAddressItem.nullAddressItem] : List DataAndAddressItem).set 0
        { type_id := [t0, t1], data := d0 }).length := by
    simp
  rw [fromBytesLoop_item _ _ _ _ _ _ _ _ ht1 ht2 h1 ht3 ho2 hi2]
  have hstop : ¬ d0.length + 4 + d1.length + 4 < (t0 :: t1 :: x0 :: x1 ::
      (d0 ++ (u0 :: u1 :: y0 :: y1 :: d1)) : List Nat).length := by
    rw [hlen]
    omega
  rw [fromBytesLoop_stop _ _ _ _ _ hstop]
  rfl

/-- C7 amended: CPF decoding via CommonPacketFormat([]).from_bytes
completes and produces the decoded items only while they fit the two
packet slots pre-created by construction from the empty list: a buffer
holding two well-formed items decodes to exactly those two items (a
buffer with three or more makes the item store raise IndexError, as the
counterexample shows). -/
theorem c7_amended_two_items_decode (t0 t1 u0 u1 : Nat) (d0 d1 : List Nat)
    (h0 : d0.length < 65536) (h1 : d1.length < 65536) :
    CommonPacketFormat.fromBytes
        ([2, 0] ++ DataAndAddressItem.bytes { type_id := [t0, t1], data := d0 }
          ++ DataAndAddressItem.bytes { type_id := [u0, u1], data := d1 }) =
      some (2, [{ type_id := [t0, t1], data := d0 },
        { type_id := [u0, u1], data := d1 }]) := by
  have hloop := fromBytesLoop_two_items t0 t1 u0 u1
    (d0.length % 256) (d0.length / 256 % 256)
    (d1.length % 256) (d1.length / 256 % 256) d0 d1 rfl rfl h0 h1
  have hloop' : CommonPacketFormat.fromBytesLoop
      (([2, 0] ++ DataAndAddressItem.bytes { type_id := [t0, t1], data := d0 }
        ++ DataAndAddressItem.bytes { type_id := [u0, u1], data := d1 }
        : List Nat).drop 2)
      ((([2, 0] ++ DataAndAddressItem.bytes { type_id := [t0, t1], data := d0 }
        ++ DataAndAddressItem.bytes { type_id := [u0, u1], data := d1 }
        : List Nat).drop 2).length + 1)
      0 (CommonPacketFormat.initPackets []) 0
      = some [{ type_id := [t0, t1], data := d0 },
          { type_id := [u0, u1], data := d1 }] := hloop
  simp only [CommonPacketFormat.fromBytes]
  rw [hloop']
  rfl

theorem c7_amended_witness :
    ([5] : List Nat).length < 65536 ∧ ([6, 7] : List Nat).length < 65536 ∧
    CommonPacketFormat.fromBytes
        ([2, 0] ++ DataAndAddressItem.bytes { type_id := [0, 0], data := [5] }
          ++ DataAndAddressItem.bytes { type_id := [178, 0], data := [6, 7] }) =
      some (2, [{ type_id := [0, 0], data := [5] },
        { type_id := [178, 0], data := [6, 7] }]) :=
  ⟨by decide, by decide,
   c7_amended_two_items_decode 0 0 178 0 [5] [6, 7] (by decide) (by decide)⟩

/-! ## Claim C9 amended -/

theorem utf8EncodeChar_length_pos (c : Char) : 1 ≤ (utf8EncodeChar c).length := by
  simp only [utf8EncodeChar]
  split_ifs <;> simp

theorem length_le_utf8Encode (s : List Char) : s.length ≤ (utf8Encode s).length := by
  induction s with
  | nil => simp [utf8Encode]
  | cons c cs ih =>
    have hc := utf8EncodeChar_length_pos c
    simp only [utf8Encode, List.map_cons, List.flatten_cons, List.length_append,
      List.length_cons] at ih ⊢
    omega

theorem utf8Encode_ascii_length (s : List Char) (h : ∀ c ∈ s, c.toNat < 128) :
    (utf8Encode s).length = s.length := by
  induction s with
  | nil => simp [utf8Encode]
  | cons c cs ih =>
    have hc : c.toNat < 128 := h c (List.mem_cons_self c cs)
    have hcs : ∀ c ∈ cs, c.toNat < 128 := fun x hx => h x (List.mem_cons_of_mem c hx)
    have henc : utf8EncodeChar c = [c.toNat] := by
      unfold utf8EncodeChar
      rw [if_pos (by omega)]
    simp only [utf8Encode, List.map_cons, List.flatten_cons, List.length_append,
      List.length_cons, List.length_nil, henc] at ih ⊢
    rw [ih hcs]
    omega

/-- C9 amended: for every tag name of UTF-8 byte length at most 255, the
encoded symbolic path has even byte length and its length byte (the
element at index 1) equals the number of characters of the name — which
equals the byte length L exactly when every character is ASCII, but not
in general. -/
theorem c9_amended_path_padding (tag_name : List Char)
    (hL : (utf8Encode tag_name).length ≤ 255) :
    ∃ rp, CIPRequest.tag_request_path tag_name = some rp ∧
      rp.length % 2 = 0 ∧
      rp.get? 1 = some tag_name.length ∧
      ((∀ c ∈ tag_name, c.toNat < 128) →
        tag_name.length = (utf8Encode tag_name).length) := by
  have hn : tag_name.length < 256 := by
    have := length_le_utf8Encode tag_name
    omega
  have hpath : CIPRequest.tag_request_path tag_name =
      some (if ((145 : Nat) :: tag_name.length :: utf8Encode tag_name).length % 2 ≠ 0
        then (145 :: tag_name.length :: utf8Encode tag_name) ++ [0]
        else 145 :: tag_name.length :: utf8Encode tag_name) := by
    unfold CIPRequest.tag_request_path
    rw [if_pos hn]
  by_cases hpar : ((145 : Nat) :: tag_name.length :: utf8Encode tag_name).length % 2 ≠ 0
  · rw [if_pos hpar] at hpath
    refine ⟨_, hpath, ?_, rfl,
      fun hA => (utf8Encode_ascii_length tag_name hA).symm⟩
    simp only [List.length_append, List.length_cons, List.length_nil] at hpar ⊢
    omega
  · rw [if_neg hpar] at hpath
    refine ⟨_, hpath, ?_, rfl,
      fun hA => (utf8Encode_ascii_length tag_name hA).symm⟩
    simp only [List.length_cons] at hpar ⊢
    omega

theorem c9_amended_witness :
    (utf8Encode ['A', 'B', 'C']).length ≤ 255 ∧
    ∃ rp, CIPRequest.tag_request_path ['A', 'B', 'C'] = some rp ∧
      rp.length % 2 = 0 ∧
      rp.get? 1 = some (['A', 'B', 'C'] : List Char).length ∧
      ((∀ c ∈ (['A', 'B', 'C'] : List Char), c.toNat < 128) →
        (['A', 'B', 'C'] : List Char).length = (utf8Encode ['A', 'B', 'C']).length) :=
  ⟨by decide, c9_amended_path_padding ['A', 'B', 'C'] (by decide)⟩
